import Mathlib

/-!
Verification development for the proxmox-claude-http repository.

The repository contains three server implementations sharing one remote
hypervisor REST backend:

- index.js: the stdio MCP server (class ProxmoxServer).  Its tools/call
  dispatcher, its seven-tool catalogue, and its tool handlers (getNodes,
  getNodeStatus, getVMs, getVMStatus, executeVMCommand, getStorage,
  getClusterStatus) are embedded below with the suffix Stdio.
- the HTTP MCP server (class ProxmoxMCPServer, express): its method router
  handleMCPRequest, its three-tool catalogue, its handleToolCall and the
  top-level endpoint catch are embedded with the prefix http.
- the HTTP REST server (class ProxmoxClaudeServer): its getVMs fan-out
  collector (per-node try/catch) is embedded as collectVMsHttp2.

Modelling conventions:
- The remote hypervisor API (proxmoxRequest) is a Backend record mapping
  each endpoint family to an Except String payload; .error models a thrown
  proxmoxRequest error, .ok a parsed data payload.
- JS undefined for an optional string is Option.none; template-literal
  interpolation of undefined is jsStr; JS truthiness and default
  parameters are jsTruthy / jsDefault / jsOrStr / jsOrNat.
- Human-readable rendering of LISTING payloads (emoji markdown built with
  the floating-point helpers formatBytes and toFixed) is out of scope per
  the specification, which treats it as an external pure presentation
  collaborator; those renderers are fields of a Render record passed to
  the handlers.  All permission-gate texts, error texts and command
  execution texts, which the claims inspect, are embedded exactly as the
  string concatenations the source builds (JS backticks written as \x60).
-/

/-- JS template-literal interpolation of a possibly-undefined string. -/
def jsStr : Option String → String
  | some s => s
  | none => "undefined"

/-- JS default parameter: applies when the argument is undefined. -/
def jsDefault : Option String → String → String
  | some s, _ => s
  | none, d => d

/-- JS truthiness of a possibly-undefined string (undefined and the empty
string are falsy). -/
def jsTruthy : Option String → Bool
  | none => false
  | some s => s ≠ ""

/-- JS `x || d` for a possibly-undefined string x. -/
def jsOrStr : Option String → String → String
  | none, d => d
  | some s, d => if s = "" then d else s

/-- JS `x || d` for a possibly-undefined number x rendered into a template
literal (0 is falsy). -/
def jsOrNat : Option Nat → String → String
  | none, d => d
  | some n, d => if n = 0 then d else toString n

/-- Substring occurrence test on character lists (naive search). -/
def containsAux (pat : List Char) : List Char → Bool
  | [] => pat.isEmpty
  | c :: rest => pat.isPrefixOf (c :: rest) || containsAux pat rest

/-- Substring occurrence test on strings. -/
def strContains (s pat : String) : Bool :=
  containsAux pat.data s.data

theorem isPrefixOf_append_self (p r : List Char) : p.isPrefixOf (p ++ r) = true := by
  induction p with
  | nil => simp [List.isPrefixOf]
  | cons c cs ih => simp [List.isPrefixOf, ih]

theorem isPrefixOf_mono (p : List Char) : ∀ (xs ys : List Char),
    p.isPrefixOf xs = true → p.isPrefixOf (xs ++ ys) = true := by
  induction p with
  | nil => intro xs ys _; simp [List.isPrefixOf]
  | cons d ds ih =>
      intro xs ys h
      cases xs with
      | nil => simp [List.isPrefixOf] at h
      | cons c cs =>
          simp only [List.isPrefixOf, Bool.and_eq_true] at h
          simpa [List.isPrefixOf, h.1] using ih cs ys h.2

theorem containsAux_nil_pat (l : List Char) : containsAux [] l = true := by
  induction l with
  | nil => simp [containsAux, List.isEmpty]
  | cons c cs ih => simp [containsAux, List.isPrefixOf]

theorem containsAux_of_isPrefixOf {p s : List Char}
    (h : p.isPrefixOf s = true) : containsAux p s = true := by
  cases s with
  | nil =>
      cases p with
      | nil => simp [containsAux, List.isEmpty]
      | cons d ds => simp [List.isPrefixOf] at h
  | cons c cs => simp [containsAux, h]

theorem containsAux_append_mid (l p r : List Char) :
    containsAux p (l ++ p ++ r) = true := by
  induction l with
  | nil =>
      simp only [List.nil_append]
      exact containsAux_of_isPrefixOf (isPrefixOf_append_self p r)
  | cons c cs ih =>
      simp only [List.cons_append, containsAux, List.append_eq]
      rw [ih]
      simp

/-- A string built as left ++ pat ++ right contains pat. -/
theorem strContains_append_mid (l p r : String) :
    strContains (l ++ p ++ r) p = true := by
  unfold strContains
  rw [String.data_append, String.data_append]
  exact containsAux_append_mid l.data p.data r.data

theorem containsAux_append_left (xs p : List Char) {ys : List Char}
    (h : containsAux p ys = true) : containsAux p (xs ++ ys) = true := by
  induction xs with
  | nil => simpa using h
  | cons c cs ih =>
      simp only [List.cons_append, containsAux, List.append_eq]
      rw [ih]
      simp

theorem containsAux_append_right (ys p : List Char) {xs : List Char}
    (h : containsAux p xs = true) : containsAux p (xs ++ ys) = true := by
  induction xs with
  | nil =>
      cases p with
      | nil => exact containsAux_nil_pat ys
      | cons d ds => simp [containsAux, List.isEmpty] at h
  | cons c cs ih =>
      simp only [containsAux, Bool.or_eq_true] at h
      simp only [List.cons_append, containsAux, List.append_eq, Bool.or_eq_true]
      rcases h with h | h
      · exact Or.inl (isPrefixOf_mono p (c :: cs) ys h)
      · exact Or.inr (ih h)

/-- strContains is preserved by appending on the left. -/
theorem strContains_append_of_right (s t p : String) (h : strContains t p = true) :
    strContains (s ++ t) p = true := by
  unfold strContains at h ⊢
  rw [String.data_append]
  exact containsAux_append_left s.data p.data h

/-- strContains is preserved by appending on the right. -/
theorem strContains_append_of_left (s t p : String) (h : strContains s p = true) :
    strContains (s ++ t) p = true := by
  unfold strContains at h ⊢
  rw [String.data_append]
  exact containsAux_append_right t.data p.data h

/-! ## Data model shared by all three server implementations -/

/-- One entry of the GET /nodes payload (the fields the dispatch core reads;
numeric resource fields are consumed only by the out-of-scope renderers). -/
structure NodeEntry where
  node : String
  status : String
  uptime : Option Nat := none
  deriving Repr, DecidableEq

/-- One entry of a GET /nodes/:node/qemu or /nodes/:node/lxc payload.
nodeField models a possible node property on the raw entry, read only by
the index.js multi-node lxc mapping (vm.node or node.node). -/
structure VmEntry where
  vmid : Nat
  name : Option String := none
  status : String := "stopped"
  nodeField : Option String := none
  deriving Repr, DecidableEq

/-- A VM entry tagged with its type and node, as built by the spread
expressions in every getVMs implementation. -/
structure TaggedVm where
  vmid : Nat
  name : Option String := none
  status : String := "stopped"
  type : String
  node : String
  deriving Repr, DecidableEq

/-- One entry of a GET /nodes/:node/storage payload. -/
structure StorageRaw where
  storage : String
  deriving Repr, DecidableEq

/-- A storage entry tagged with its node. -/
structure TaggedStorage where
  storage : String
  node : String
  deriving Repr, DecidableEq

/-- GET /nodes/:node/status payload (detail fields are consumed only by the
out-of-scope renderer). -/
structure NodeStatusData where
  uptime : Option Nat := none
  deriving Repr, DecidableEq

/-- GET /nodes/:node/:type/:vmid/status/current payload. -/
structure VmStatusData where
  name : Option String := none
  status : String := "stopped"
  deriving Repr, DecidableEq

/-- POST /nodes/:node/qemu/:vmid/agent/exec payload: the guest agent
acknowledges submission with an opaque process identifier. -/
structure AgentExecResult where
  pid : Option Nat := none
  deriving Repr, DecidableEq

/-- The remote hypervisor REST API as seen through proxmoxRequest: each
endpoint family maps to a parsed payload or a thrown error message. -/
structure Backend where
  nodes : Except String (List NodeEntry)
  nodeStatus : String → Except String NodeStatusData
  qemu : String → Except String (List VmEntry)
  lxc : String → Except String (List VmEntry)
  vmCurrent : String → String → String → Except String VmStatusData
  agentExec : String → String → String → Except String AgentExecResult
  lxcExec : String → String → String → Except String (Option String)
  storage : String → Except String (List StorageRaw)
  cluster : Except String Unit

/-- Process-wide configuration read at startup (PROXMOX_ALLOW_ELEVATED). -/
structure Config where
  allowElevated : Bool
  deriving Repr, DecidableEq

/-- One item of a tool response content array. -/
structure TextItem where
  type : String
  text : String
  deriving Repr, DecidableEq

/-- The tools/call result shape: a content array of text items. -/
structure ToolResponse where
  content : List TextItem
  deriving Repr, DecidableEq

/-- The single-text-item response every handler builds. -/
def textResp (t : String) : ToolResponse :=
  { content := [{ type := "text", text := t }] }

/-- The out-of-scope presentation collaborator of the specification: the
emoji/markdown renderers for listing payloads (they use the floating-point
helpers formatBytes and toFixed, which the specification excludes from the
core).  The dispatch core passes them the collected, ordered data. -/
structure Render where
  nodes : List NodeEntry → String
  nodeStatus : String → NodeStatusData → String
  vms : List TaggedVm → String
  vmStatus : String → String → String → VmStatusData → String
  storage : List TaggedStorage → String
  cluster : Bool → List NodeEntry → String

/-! ## Sorting as performed by the getVMs and getStorage handlers -/

/-- The ascending-vmid sort vms.sort((a, b) => parseInt(a.vmid) - parseInt(b.vmid))
(numeric ascending, stable). -/
def sortByVmid (l : List TaggedVm) : List TaggedVm :=
  l.mergeSort (fun a b => decide (a.vmid ≤ b.vmid))

/-- The ascending-name sort storages.sort((a, b) => a.storage.localeCompare(b.storage)),
with localeCompare modelled as codepoint order. -/
def sortByStorageName (l : List TaggedStorage) : List TaggedStorage :=
  l.mergeSort (fun a b => decide (a.storage ≤ b.storage))

/-! ## The stdio MCP server of index.js (class ProxmoxServer) -/

/-- Gated-permission notice returned by getNodeStatus when
PROXMOX_ALLOW_ELEVATED is not set (index.js). -/
def nodeStatusGatedText : String :=
  "⚠️  **Node Status Requires Elevated Permissions**\n\nTo view detailed node status, set \x60PROXMOX_ALLOW_ELEVATED=true\x60 in your .env file and ensure your API token has Sys.Audit permissions.\n\n**Current permissions**: Basic (node listing only)"

/-- Gated-permission notice returned by executeVMCommand when
PROXMOX_ALLOW_ELEVATED is not set; it interpolates the requested command
(index.js). -/
def execGatedText (command : String) : String :=
  "⚠️  **VM Command Execution Requires Elevated Permissions**\n\nTo execute commands on VMs, set \x60PROXMOX_ALLOW_ELEVATED=true\x60 in your .env file and ensure your API token has appropriate VM permissions.\n\n**Current permissions**: Basic (VM listing only)\n**Requested command**: \x60" ++ command ++ "\x60"

/-- Text built by the qemu branch of executeVMCommand: submission notice
and the guest agent process id, no command output (index.js). -/
def qemuExecText (vmid command : String) (pid : Option Nat) : String :=
  "💻 **Command executed on VM " ++ vmid ++ "**\n\n**Command**: \x60" ++ command ++
    "\x60\n**Result**: Command submitted to guest agent\n**PID**: " ++ jsOrNat pid "N/A" ++
    "\n\n*Note: Use guest agent status to check command completion*"

/-- Text built by the lxc branch of executeVMCommand: the exec result is
returned inline (index.js). -/
def lxcExecText (vmid command : String) (result : Option String) : String :=
  "📦 **Command executed on LXC " ++ vmid ++ "**\n\n**Command**: \x60" ++ command ++
    "\x60\n**Output**:\n\x60\x60\x60\n" ++ jsOrStr result "Command executed successfully" ++ "\n\x60\x60\x60"

/-- Text built by the catch block of executeVMCommand (index.js); it
interpolates the vmid and the error message but not the command. -/
def execFailText (vmid err : String) : String :=
  "❌ **Failed to execute command on VM " ++ vmid ++ "**\n\nError: " ++ err ++
    "\n\n*Note: Make sure the VM has guest agent installed and running*"

/-- getNodes of index.js: fetch /nodes and render; a backend error
propagates to the dispatcher. -/
def getNodesStdio (r : Render) (b : Backend) : Except String ToolResponse := do
  let ns ← b.nodes
  .ok (textResp (r.nodes ns))

/-- getNodeStatus of index.js: the elevation gate is checked before any
network request; the gated branch returns a fixed Success notice. -/
def getNodeStatusStdio (cfg : Config) (r : Render) (b : Backend)
    (node : Option String) : Except String ToolResponse :=
  if !cfg.allowElevated then
    .ok (textResp nodeStatusGatedText)
  else do
    let st ← b.nodeStatus (jsStr node)
    .ok (textResp (r.nodeStatus (jsStr node) st))

/-- Tagging of a raw VM entry with type and node (the object spread in
every getVMs implementation). -/
def tagVm (ty nd : String) (v : VmEntry) : TaggedVm :=
  { vmid := v.vmid, name := v.name, status := v.status, type := ty, node := nd }

/-- The multi-node fan-out of getVMs in index.js: no per-node try/catch,
so the first failing fetch aborts the whole query. -/
def collectVMsStdioAll (b : Backend) (ns : List NodeEntry) (ty : String) :
    Except String (List TaggedVm) := do
  let parts ← ns.mapM (fun nd => do
    let q ← if ty = "all" ∨ ty = "qemu" then
        (b.qemu nd.node).map (List.map (tagVm "qemu" nd.node))
      else .ok []
    let l ← if ty = "all" ∨ ty = "lxc" then
        (b.lxc nd.node).map (List.map (fun v =>
          ({ vmid := v.vmid, name := v.name, status := v.status,
             type := "lxc", node := jsOrStr v.nodeField nd.node } : TaggedVm)))
      else .ok []
    .ok (q ++ l))
  .ok parts.flatten

/-- getVMs data collection of index.js.  With a node filter both kind
lists are always fetched and then filtered by type; without one the nodes
are enumerated and each enabled kind is fetched per node, errors
propagating. -/
def collectVMsStdio (b : Backend) (nodeFilter typeFilter : Option String) :
    Except String (List TaggedVm) :=
  let ty := jsDefault typeFilter "all"
  if jsTruthy nodeFilter then do
    let nf := jsStr nodeFilter
    let nodeVMs ← b.qemu nf
    let nodeLXCs ← b.lxc nf
    let vs1 := if ty = "all" ∨ ty = "qemu" then nodeVMs.map (tagVm "qemu" nf) else []
    let vs2 := if ty = "all" ∨ ty = "lxc" then nodeLXCs.map (tagVm "lxc" nf) else []
    .ok (vs1 ++ vs2)
  else do
    let ns ← b.nodes
    collectVMsStdioAll b ns ty

/-- The collected and vmid-sorted VM list of getVMs in index.js. -/
def getVMsListStdio (b : Backend) (nodeFilter typeFilter : Option String) :
    Except String (List TaggedVm) :=
  (collectVMsStdio b nodeFilter typeFilter).map sortByVmid

/-- getVMs of index.js: collect, sort by vmid, render. -/
def getVMsStdio (r : Render) (b : Backend) (nodeFilter typeFilter : Option String) :
    Except String ToolResponse :=
  (getVMsListStdio b nodeFilter typeFilter).map (fun vms => textResp (r.vms vms))

/-- getVMStatus of index.js. -/
def getVMStatusStdio (r : Render) (b : Backend)
    (node vmid ty : Option String) : Except String ToolResponse := do
  let t := jsDefault ty "qemu"
  let st ← b.vmCurrent (jsStr node) t (jsStr vmid)
  .ok (textResp (r.vmStatus (jsStr node) (jsStr vmid) t st))

/-- executeVMCommand of index.js: elevation gate first (before any network
request), then the strategy split on type: qemu submits to the guest agent
and reports the pid; anything else execs the container and returns the
output inline.  Its own try/catch turns a backend error into the
content-level failure text. -/
def executeVMCommandStdio (cfg : Config) (b : Backend)
    (node vmid command ty : Option String) : ToolResponse :=
  if !cfg.allowElevated then
    textResp (execGatedText (jsStr command))
  else
    match (if jsDefault ty "qemu" = "qemu" then
        (b.agentExec (jsStr node) (jsStr vmid) (jsStr command)).map
          (fun res => textResp (qemuExecText (jsStr vmid) (jsStr command) res.pid))
      else
        (b.lxcExec (jsStr node) (jsStr vmid) (jsStr command)).map
          (fun res => textResp (lxcExecText (jsStr vmid) (jsStr command) res))) with
    | .ok resp => resp
    | .error e => textResp (execFailText (jsStr vmid) e)

/-- First-occurrence deduplication of getStorage in index.js, keyed on
storage-node. -/
def dedupStorage (l : List TaggedStorage) : List TaggedStorage :=
  (l.foldl (fun (acc : List TaggedStorage × List String) s =>
    let key := s.storage ++ "-" ++ s.node
    if key ∈ acc.2 then acc else (acc.1 ++ [s], key :: acc.2)) ([], [])).1

/-- getStorage data collection of index.js: single-node path maps the
filter node onto each entry; multi-node path enumerates nodes with errors
propagating (no per-node try/catch in index.js). -/
def collectStorageStdio (b : Backend) (nodeFilter : Option String) :
    Except String (List TaggedStorage) :=
  if jsTruthy nodeFilter then
    (b.storage (jsStr nodeFilter)).map
      (List.map (fun s => { storage := s.storage, node := jsStr nodeFilter }))
  else do
    let ns ← b.nodes
    let parts ← ns.mapM (fun nd =>
      (b.storage nd.node).map (List.map (fun s => ({ storage := s.storage, node := nd.node } : TaggedStorage))))
    .ok parts.flatten

/-- The deduplicated, name-sorted storage list of getStorage in index.js. -/
def getStorageListStdio (b : Backend) (nodeFilter : Option String) :
    Except String (List TaggedStorage) :=
  (collectStorageStdio b nodeFilter).map (fun ss => sortByStorageName (dedupStorage ss))

/-- getStorage of index.js. -/
def getStorageStdio (r : Render) (b : Backend) (nodeFilter : Option String) :
    Except String ToolResponse :=
  (getStorageListStdio b nodeFilter).map (fun ss => textResp (r.storage ss))

/-- getClusterStatus of index.js: its own try/catch makes it total; the
elevated /cluster/status fetch is attempted but its payload is unused and
its failure ignored by the source. -/
def getClusterStatusStdio (cfg : Config) (r : Render) (b : Backend) : ToolResponse :=
  match b.nodes with
  | .error e =>
      textResp ("❌ **Failed to get cluster status**\n\nError: " ++ e)
  | .ok ns => textResp (r.cluster cfg.allowElevated ns)

/-! ## The stdio tools/call dispatcher of index.js -/

/-- The arguments object of a tools/call request; every field read by the
dispatcher, each possibly undefined. -/
structure Args where
  node : Option String := none
  vmid : Option String := none
  command : Option String := none
  type : Option String := none
  deriving Repr, DecidableEq

/-- Message of the TypeError raised by reading the node property of an
absent arguments object (quotes of the engine message elided). -/
def argsTypeErrText : String :=
  "Cannot read properties of undefined (reading node)"

/-- JS property read args.node on a possibly-undefined arguments object:
throws a TypeError when the object is undefined.  Every arguments-reading
case of the dispatcher reads args.node first. -/
def jsDeref : Option Args → Except String Args
  | some a => .ok a
  | none => .error argsTypeErrText

/-- The body of the CallToolRequestSchema handler switch in index.js
(before its surrounding try/catch); the JS string switch is the
if-else-if chain on the tool name, the default case throws Unknown tool. -/
def callToolInnerStdio (cfg : Config) (r : Render) (b : Backend)
    (name : String) (args? : Option Args) : Except String ToolResponse :=
  if name = "proxmox_get_nodes" then
    getNodesStdio r b
  else if name = "proxmox_get_node_status" then do
    let a ← jsDeref args?
    getNodeStatusStdio cfg r b a.node
  else if name = "proxmox_get_vms" then do
    let a ← jsDeref args?
    getVMsStdio r b a.node a.type
  else if name = "proxmox_get_vm_status" then do
    let a ← jsDeref args?
    getVMStatusStdio r b a.node a.vmid a.type
  else if name = "proxmox_execute_vm_command" then do
    let a ← jsDeref args?
    .ok (executeVMCommandStdio cfg b a.node a.vmid a.command a.type)
  else if name = "proxmox_get_storage" then do
    let a ← jsDeref args?
    getStorageStdio r b a.node
  else if name = "proxmox_get_cluster_status" then
    .ok (getClusterStatusStdio cfg r b)
  else
    .error ("Unknown tool: " ++ name)

/-- The CallToolRequestSchema handler of index.js: the try/catch wrapping
the switch turns every thrown error into a single-text-item content
response prefixed with Error. -/
def callToolStdio (cfg : Config) (r : Render) (b : Backend)
    (name : String) (args? : Option Args) : ToolResponse :=
  match callToolInnerStdio cfg r b name args? with
  | .ok resp => resp
  | .error e => textResp ("Error: " ++ e)

/-- A tool descriptor of a tools/list response: name, description and the
required argument names of its input schema. -/
structure ToolDescriptor where
  name : String
  description : String
  required : List String := []
  deriving Repr, DecidableEq

/-- The static seven-tool catalogue returned by the ListToolsRequestSchema
handler of index.js; the handler ignores the configuration, so the list is
the same however the elevation flag is set. -/
def listToolsStdio (_cfg : Config) : List ToolDescriptor :=
  [ { name := "proxmox_get_nodes",
      description := "List all Proxmox cluster nodes with their status and resources" },
    { name := "proxmox_get_node_status",
      description := "Get detailed status information for a specific Proxmox node",
      required := ["node"] },
    { name := "proxmox_get_vms",
      description := "List all virtual machines across the cluster with their status" },
    { name := "proxmox_get_vm_status",
      description := "Get detailed status information for a specific VM",
      required := ["node", "vmid"] },
    { name := "proxmox_execute_vm_command",
      description := "Execute a shell command on a virtual machine via Proxmox API",
      required := ["node", "vmid", "command"] },
    { name := "proxmox_get_storage",
      description := "List all storage pools and their usage across the cluster" },
    { name := "proxmox_get_cluster_status",
      description := "Get overall cluster status including nodes and resource usage" } ]

/-- The seven tool names of the stdio catalogue. -/
def stdioToolNames : List String :=
  [ "proxmox_get_nodes", "proxmox_get_node_status", "proxmox_get_vms",
    "proxmox_get_vm_status", "proxmox_execute_vm_command",
    "proxmox_get_storage", "proxmox_get_cluster_status" ]

/-! ## The HTTP MCP server (class ProxmoxMCPServer, express) -/

/-- A JSON-RPC id value; absence (the undefined id of a request that
omitted the field) is Option.none around this type. -/
inductive JsonId where
  | null
  | num (n : Int)
  | str (s : String)
  deriving Repr, DecidableEq

/-- The params member of a tools/call request. -/
structure CallParams where
  name : String
  arguments : Option Args := none
  deriving Repr, DecidableEq

/-- An incoming MCP request envelope over HTTP. -/
structure MCPRequest where
  id : Option JsonId := none
  method : String
  params : Option CallParams := none
  deriving Repr, DecidableEq

/-- The result member of a successful MCP response. -/
inductive MCPResult where
  | initRes (protocolVersion serverName serverVersion : String)
  | toolsList (tools : List ToolDescriptor)
  | content (items : List TextItem)
  deriving Repr, DecidableEq

/-- An outgoing MCP response envelope: Success carries result, Failure
carries the error object with code, message and data. -/
inductive MCPResponse where
  | success (id : Option JsonId) (result : MCPResult)
  | failure (id : Option JsonId) (code : Int) (message : String) (data : String)
  deriving Repr, DecidableEq

/-- The id member of a response envelope. -/
def MCPResponse.rid : MCPResponse → Option JsonId
  | .success i _ => i
  | .failure i _ _ _ => i

/-- Whether a response is a protocol-level Failure (error member present). -/
def MCPResponse.isFailure : MCPResponse → Bool
  | .success _ _ => false
  | .failure _ _ _ _ => true

/-- The three tool implementations the HTTP MCP dispatcher can invoke,
abstracted over the backend and the presentation collaborator: each
returns the rendered text or the thrown error message. -/
structure HttpTools where
  getNodes : Except String String
  getVMs : Option String → Option String → Except String String
  getClusterStatus : Except String String

/-- handleInit of the HTTP MCP server. -/
def handleInit (req : MCPRequest) : MCPResponse :=
  .success req.id (.initRes "2024-11-05" "proxmox-mcp-server" "1.0.0")

/-- The static three-tool catalogue of handleToolsList in the HTTP MCP
server. -/
def httpToolDescriptors : List ToolDescriptor :=
  [ { name := "proxmox_get_nodes",
      description := "List all Proxmox cluster nodes with their status and resource usage" },
    { name := "proxmox_get_vms",
      description := "List all virtual machines across the cluster" },
    { name := "proxmox_get_cluster_status",
      description := "Get overall cluster status including nodes and resource usage" } ]

/-- handleToolsList of the HTTP MCP server. -/
def handleToolsList (req : MCPRequest) : MCPResponse :=
  .success req.id (.toolsList httpToolDescriptors)

/-- The tool switch inside handleToolCall of the HTTP MCP server: the
result assignment per known tool, the default case throwing Unknown
tool. -/
def httpToolRoute (t : HttpTools) (p : CallParams) : Except String String :=
  if p.name = "proxmox_get_nodes" then t.getNodes
  else if p.name = "proxmox_get_vms" then
    t.getVMs ((p.arguments.map Args.node).join) ((p.arguments.map Args.type).join)
  else if p.name = "proxmox_get_cluster_status" then t.getClusterStatus
  else .error ("Unknown tool: " ++ p.name)

/-- handleToolCall of the HTTP MCP server: destructuring request.params
throws when params is absent (the Except error); a tool error is caught
and returned as a protocol-level Failure envelope with code -32603, the
unknown-tool throw included; a tool success is wrapped as a Success whose
result content holds the text. -/
def handleToolCall (t : HttpTools) (req : MCPRequest) : Except String MCPResponse :=
  match req.params with
  | none => .error argsTypeErrText
  | some p =>
      match httpToolRoute t p with
      | .ok text => .ok (.success req.id (.content [{ type := "text", text := text }]))
      | .error e => .ok (.failure req.id (-32603) "Tool execution failed" e)

/-- handleMCPRequest of the HTTP MCP server: the top-level method router. -/
def handleMCPRequest (t : HttpTools) (req : MCPRequest) : Except String MCPResponse :=
  if req.method = "initialize" then .ok (handleInit req)
  else if req.method = "tools/list" then .ok (handleToolsList req)
  else if req.method = "tools/call" then handleToolCall t req
  else .ok (.failure req.id (-32601) "Method not found" ("Unknown method: " ++ req.method))

/-- The JS expression req.body?.id || null of the endpoint catch: any
falsy id (absent, null, 0, empty string) becomes null. -/
def jsIdOrNull : Option JsonId → Option JsonId
  | none => some .null
  | some .null => some .null
  | some (.num n) => if n = 0 then some .null else some (.num n)
  | some (.str s) => if s = "" then some .null else some (.str s)

/-- The POST / endpoint of the HTTP MCP server: a rejection escaping
handleMCPRequest is caught and answered with an Internal error Failure
envelope whose id passes through req.body?.id || null. -/
def mcpEndpoint (t : HttpTools) (req : MCPRequest) : MCPResponse :=
  match handleMCPRequest t req with
  | .ok resp => resp
  | .error e => .failure (jsIdOrNull req.id) (-32603) "Internal error" e

/-! ## The getVMs fan-out of the HTTP REST server (class ProxmoxClaudeServer) -/

/-- The per-node, per-kind fetches of the multi-node getVMs path in the
HTTP REST server: each fetch sits in its own try/catch, a failing fetch
contributing nothing (node might be offline, continue). -/
def perNodeHttp2 (b : Backend) (ty : String) (nd : NodeEntry) : List TaggedVm :=
  (if ty = "all" ∨ ty = "qemu" then
    match b.qemu nd.node with
    | .ok l => l.map (tagVm "qemu" nd.node)
    | .error _ => []
   else []) ++
  (if ty = "all" ∨ ty = "lxc" then
    match b.lxc nd.node with
    | .ok l => l.map (tagVm "lxc" nd.node)
    | .error _ => []
   else [])

/-- getVMs data collection of the HTTP REST server: the single-node path
propagates fetch errors; the multi-node path enumerates /nodes and
accumulates each per-node result, isolating per-node failure. -/
def collectVMsHttp2 (b : Backend) (nodeName ty0 : Option String) :
    Except String (List TaggedVm) :=
  let ty := jsDefault ty0 "all"
  if jsTruthy nodeName then do
    let nn := jsStr nodeName
    let vs1 ← if ty = "all" ∨ ty = "qemu" then
        (b.qemu nn).map (List.map (tagVm "qemu" nn))
      else .ok []
    let vs2 ← if ty = "all" ∨ ty = "lxc" then
        (b.lxc nn).map (List.map (tagVm "lxc" nn))
      else .ok []
    .ok (vs1 ++ vs2)
  else do
    let ns ← b.nodes
    .ok (ns.flatMap (perNodeHttp2 b ty))

/-- The collected and vmid-sorted VM list of getVMs in the HTTP REST
server (vms.sort((a, b) => a.vmid - b.vmid)). -/
def getVMsListHttp2 (b : Backend) (nodeName ty0 : Option String) :
    Except String (List TaggedVm) :=
  (collectVMsHttp2 b nodeName ty0).map sortByVmid

/-- The fan-out target set of a multi-node getVMs query: one (node, kind)
pair per enumerated node and enabled kind. -/
def vmTargets (ns : List NodeEntry) (ty : String) : List (String × String) :=
  ns.flatMap (fun nd =>
    (if ty = "all" ∨ ty = "qemu" then [(nd.node, "qemu")] else []) ++
    (if ty = "all" ∨ ty = "lxc" then [(nd.node, "lxc")] else []))

/-- The fetch a fan-out target stands for. -/
def fetchTarget (b : Backend) (t : String × String) : Except String (List VmEntry) :=
  if t.2 = "qemu" then b.qemu t.1 else b.lxc t.1

/-- Whether a fetch answered. -/
def isOkFetch (x : Except String (List VmEntry)) : Bool :=
  match x with
  | .ok _ => true
  | .error _ => false

/-- The targets of a fan-out whose fetch answered. -/
def succeededTargets (b : Backend) (ns : List NodeEntry) (ty : String) :
    List (String × String) :=
  (vmTargets ns ty).filter (fun t => isOkFetch (fetchTarget b t))

/-- The targets of a fan-out whose fetch failed. -/
def failedTargets (b : Backend) (ns : List NodeEntry) (ty : String) :
    List (String × String) :=
  (vmTargets ns ty).filter (fun t => !isOkFetch (fetchTarget b t))

/-! ## Additional substring and ordering lemmas -/

/-- Every string contains itself. -/
theorem strContains_refl (s : String) : strContains s s = true := by
  unfold strContains
  apply containsAux_of_isPrefixOf
  have h := isPrefixOf_append_self s.data []
  rwa [List.append_nil] at h

/-- A filter and its complement partition the length of a list. -/
theorem length_filter_partition {α : Type} (p : α → Bool) (l : List α) :
    (l.filter p).length + (l.filter (fun a => !(p a))).length = l.length := by
  induction l with
  | nil => rfl
  | cons a as ih =>
      cases h : p a <;> simp [List.filter_cons, h] <;> omega

/-- Membership is unchanged by the vmid sort. -/
theorem mem_sortByVmid {tv : TaggedVm} {l : List TaggedVm} :
    tv ∈ sortByVmid l ↔ tv ∈ l :=
  List.mem_mergeSort

/-- The vmid sort yields an ascending-vmid list. -/
theorem sortByVmid_sorted (l : List TaggedVm) :
    List.Pairwise (fun a b : TaggedVm => a.vmid ≤ b.vmid) (sortByVmid l) := by
  have h := @List.sorted_mergeSort TaggedVm (fun a b : TaggedVm => decide (a.vmid ≤ b.vmid))
    (fun a b c hab hbc => by
      simp only [decide_eq_true_eq] at hab hbc ⊢; omega)
    (fun a b => by
      rcases Nat.le_total a.vmid b.vmid with hle | hle <;> simp [hle])
    l
  exact h.imp (fun hab => by simpa using hab)

/-- The storage-name sort yields an ascending-name list. -/
theorem sortByStorageName_sorted (l : List TaggedStorage) :
    List.Pairwise (fun a b : TaggedStorage => a.storage ≤ b.storage) (sortByStorageName l) := by
  have h := @List.sorted_mergeSort TaggedStorage
    (fun a b : TaggedStorage => decide (a.storage ≤ b.storage))
    (fun a b c hab hbc => by
      simp only [decide_eq_true_eq] at hab hbc ⊢; exact le_trans hab hbc)
    (fun a b => by
      rcases le_total a.storage b.storage with hle | hle <;> simp [hle])
    l
  exact h.imp (fun hab => by simpa using hab)

/-- The endpoint catch id expression either echoes the request id or
coerces it to null. -/
theorem jsIdOrNull_cases (i : Option JsonId) : jsIdOrNull i = i ∨ jsIdOrNull i = some .null := by
  rcases i with _ | i
  · right; rfl
  rcases i with _ | n | s
  · right; rfl
  · by_cases h : n = 0 <;> simp [jsIdOrNull, h]
  · by_cases h : s = "" <;> simp [jsIdOrNull, h]

/-! ## Shape of every stdio handler result: a single text item -/

theorem getNodesStdio_shape (r : Render) (b : Backend) :
    ∀ resp, getNodesStdio r b = .ok resp → ∃ t, resp = textResp t := by
  intro resp h
  cases hb : b.nodes <;> simp [getNodesStdio, hb, Bind.bind, Except.bind] at h
  exact ⟨_, h.symm⟩

theorem getNodeStatusStdio_shape (cfg : Config) (r : Render) (b : Backend) (node : Option String) :
    ∀ resp, getNodeStatusStdio cfg r b node = .ok resp → ∃ t, resp = textResp t := by
  intro resp h
  unfold getNodeStatusStdio at h
  split at h
  · exact ⟨_, by injection h with h; exact h.symm⟩
  · cases hb : b.nodeStatus (jsStr node) <;> simp [hb, Bind.bind, Except.bind] at h
    exact ⟨_, h.symm⟩

theorem getVMsStdio_shape (r : Render) (b : Backend) (nf tf : Option String) :
    ∀ resp, getVMsStdio r b nf tf = .ok resp → ∃ t, resp = textResp t := by
  intro resp h
  unfold getVMsStdio at h
  cases hb : getVMsListStdio b nf tf <;> simp [hb, Except.map] at h
  exact ⟨_, h.symm⟩

theorem getVMStatusStdio_shape (r : Render) (b : Backend) (node vmid ty : Option String) :
    ∀ resp, getVMStatusStdio r b node vmid ty = .ok resp → ∃ t, resp = textResp t := by
  intro resp h
  unfold getVMStatusStdio at h
  cases hb : b.vmCurrent (jsStr node) (jsDefault ty "qemu") (jsStr vmid) <;>
    simp [hb, Bind.bind, Except.bind] at h
  exact ⟨_, h.symm⟩

theorem getStorageStdio_shape (r : Render) (b : Backend) (nf : Option String) :
    ∀ resp, getStorageStdio r b nf = .ok resp → ∃ t, resp = textResp t := by
  intro resp h
  unfold getStorageStdio at h
  cases hb : getStorageListStdio b nf <;> simp [hb, Except.map] at h
  exact ⟨_, h.symm⟩

theorem executeVMCommandStdio_shape (cfg : Config) (b : Backend)
    (node vmid command ty : Option String) :
    ∃ t, executeVMCommandStdio cfg b node vmid command ty = textResp t := by
  unfold executeVMCommandStdio
  split
  · exact ⟨_, rfl⟩
  · split
    · next resp heq =>
        by_cases hty : jsDefault ty "qemu" = "qemu"
        · rw [if_pos hty] at heq
          cases hb : b.agentExec (jsStr node) (jsStr vmid) (jsStr command) <;>
            rw [hb] at heq <;> simp [Except.map] at heq
          exact ⟨_, heq.symm⟩
        · rw [if_neg hty] at heq
          cases hb : b.lxcExec (jsStr node) (jsStr vmid) (jsStr command) <;>
            rw [hb] at heq <;> simp [Except.map] at heq
          exact ⟨_, heq.symm⟩
    · exact ⟨_, rfl⟩

theorem getClusterStatusStdio_shape (cfg : Config) (r : Render) (b : Backend) :
    ∃ t, getClusterStatusStdio cfg r b = textResp t := by
  unfold getClusterStatusStdio
  split <;> exact ⟨_, rfl⟩

/-! ## Membership lemmas for the per-node fan-out of the HTTP REST getVMs -/

theorem mem_perNodeHttp2_qemu {b : Backend} {ty : String} {nd : NodeEntry}
    {l : List VmEntry} {v : VmEntry} (hty : ty = "all" ∨ ty = "qemu")
    (hfetch : b.qemu nd.node = .ok l) (hv : v ∈ l) :
    tagVm "qemu" nd.node v ∈ perNodeHttp2 b ty nd := by
  unfold perNodeHttp2
  rw [if_pos hty, hfetch]
  exact List.mem_append_left _ (List.mem_map_of_mem _ hv)

theorem mem_perNodeHttp2_lxc {b : Backend} {ty : String} {nd : NodeEntry}
    {l : List VmEntry} {v : VmEntry} (hty : ty = "all" ∨ ty = "lxc")
    (hfetch : b.lxc nd.node = .ok l) (hv : v ∈ l) :
    tagVm "lxc" nd.node v ∈ perNodeHttp2 b ty nd := by
  unfold perNodeHttp2
  rw [if_pos hty, hfetch]
  exact List.mem_append_right _ (List.mem_map_of_mem _ hv)

theorem of_mem_perNodeHttp2 {b : Backend} {ty : String} {nd : NodeEntry} {tv : TaggedVm}
    (h : tv ∈ perNodeHttp2 b ty nd) :
    (∃ l, b.qemu nd.node = .ok l ∧ ∃ v ∈ l, tv = tagVm "qemu" nd.node v) ∨
    (∃ l, b.lxc nd.node = .ok l ∧ ∃ v ∈ l, tv = tagVm "lxc" nd.node v) := by
  unfold perNodeHttp2 at h
  rcases List.mem_append.1 h with h | h
  · left
    split at h
    · split at h
      · next l hfetch =>
          rcases List.mem_map.1 h with ⟨v, hv, hEq⟩
          exact ⟨l, hfetch, v, hv, hEq.symm⟩
      · simp at h
    · simp at h
  · right
    split at h
    · split at h
      · next l hfetch =>
          rcases List.mem_map.1 h with ⟨v, hv, hEq⟩
          exact ⟨l, hfetch, v, hv, hEq.symm⟩
      · simp at h
    · simp at h

/-! ## Concrete fixtures for closed counterexamples and witnesses -/

/-- A trivial presentation collaborator. -/
def render0 : Render :=
  { nodes := fun _ => "", nodeStatus := fun _ _ => "", vms := fun _ => "",
    vmStatus := fun _ _ _ _ => "", storage := fun _ => "", cluster := fun _ _ => "" }

/-- A presentation collaborator that lists node names in the order it
receives them. -/
def renderNames : Render :=
  { render0 with nodes := fun ns => String.intercalate "," (ns.map NodeEntry.node) }

/-- Basic-permission configuration. -/
def cfgBasic : Config := { allowElevated := false }

/-- Elevated-permission configuration. -/
def cfgElev : Config := { allowElevated := true }

/-- A backend that answers everything with empty data. -/
def emptyBackend : Backend :=
  { nodes := .ok [], nodeStatus := fun _ => .ok {}, qemu := fun _ => .ok [],
    lxc := fun _ => .ok [], vmCurrent := fun _ _ _ => .ok {},
    agentExec := fun _ _ _ => .ok {}, lxcExec := fun _ _ _ => .ok none,
    storage := fun _ => .ok [], cluster := .ok () }

def nodeA : NodeEntry := { node := "nodeA", status := "online" }

def nodeB : NodeEntry := { node := "nodeB", status := "online" }

def vm100 : VmEntry := { vmid := 100, name := some "web", status := "running" }

def vm101 : VmEntry := { vmid := 101, name := some "ct101", status := "running" }

/-- A two-node cluster backend on which nodeA answers and every fetch
against nodeB fails (nodeB offline): exactly one fan-out target fails for
an all-nodes qemu+lxc query once lxc answers everywhere. -/
def bOneDown : Backend :=
  { emptyBackend with
    nodes := .ok [nodeA, nodeB],
    qemu := fun n => if n = "nodeA" then .ok [vm100]
      else .error "Failed to connect to Proxmox: offline",
    lxc := fun _ => .ok [vm101] }

/-- A backend whose nodes arrive in descending name order. -/
def bDescending : Backend :=
  { emptyBackend with nodes := .ok [nodeB, nodeA] }

/-- A backend whose guest-agent exec fails. -/
def bExecFail : Backend :=
  { emptyBackend with agentExec := fun _ _ _ => .error "boom" }

/-- A backend whose guest-agent exec answers with a process id and whose
container exec answers with output. -/
def bExecOk : Backend :=
  { emptyBackend with
    agentExec := fun _ _ _ => .ok { pid := some 1234 },
    lxcExec := fun _ _ _ => .ok (some "up 3 days") }

/-- Trivial tool implementations for the HTTP MCP dispatcher. -/
def httpTools0 : HttpTools :=
  { getNodes := .ok "", getVMs := fun _ _ => .ok "", getClusterStatus := .ok "" }

/-- HTTP MCP tool implementations whose node listing fails. -/
def httpToolsFail : HttpTools :=
  { httpTools0 with getNodes := .error "Proxmox API error: 595" }

/-- A backend whose node listing fails (a remote-API error). -/
def bNodesDown : Backend :=
  { emptyBackend with nodes := .error "Proxmox API error: 595" }

/-! ## Claim C1 -/

set_option maxRecDepth 4000 in
/-- C1 counterexample: with elevation disabled, a tools/call for
proxmox_get_node_status with arguments node n1 returns the fixed gated
Success notice, and that text does not contain the requested argument n1;
so the claim that every gated-tool refusal echoes the requested arguments
fails for proxmox_get_node_status. -/
theorem c1_counterexample :
    callToolStdio cfgBasic render0 emptyBackend "proxmox_get_node_status"
      (some { node := some "n1" }) = textResp nodeStatusGatedText
  ∧ strContains nodeStatusGatedText "n1" = false := by
  exact ⟨rfl, rfl⟩

/-- C1 (amended): with elevation disabled, both gated tools answer a
tools/call with a Success text response and consult no backend endpoint
(the response is identical for every backend).  For
proxmox_execute_vm_command the text interpolates and hence contains the
requested command; for proxmox_get_node_status the text is the fixed
elevation notice, which does not echo the arguments. -/
theorem c1_amended (cfg : Config) (r : Render) (b b2 : Backend)
    (node vmid command ty : Option String)
    (h : cfg.allowElevated = false) :
    (callToolStdio cfg r b "proxmox_execute_vm_command"
        (some { node := node, vmid := vmid, command := command, type := ty })
      = textResp (execGatedText (jsStr command))
     ∧ strContains (execGatedText (jsStr command)) (jsStr command) = true
     ∧ callToolStdio cfg r b "proxmox_execute_vm_command"
         (some { node := node, vmid := vmid, command := command, type := ty })
       = callToolStdio cfg r b2 "proxmox_execute_vm_command"
         (some { node := node, vmid := vmid, command := command, type := ty }))
  ∧ (callToolStdio cfg r b "proxmox_get_node_status" (some { node := node })
      = textResp nodeStatusGatedText
     ∧ callToolStdio cfg r b "proxmox_get_node_status" (some { node := node })
       = callToolStdio cfg r b2 "proxmox_get_node_status" (some { node := node })) := by
  have hexec : ∀ b' : Backend,
      callToolStdio cfg r b' "proxmox_execute_vm_command"
        (some { node := node, vmid := vmid, command := command, type := ty })
      = textResp (execGatedText (jsStr command)) := by
    intro b'
    simp [callToolStdio, callToolInnerStdio, jsDeref, executeVMCommandStdio, h,
      Bind.bind, Except.bind]
  have hstat : ∀ b' : Backend,
      callToolStdio cfg r b' "proxmox_get_node_status" (some { node := node })
      = textResp nodeStatusGatedText := by
    intro b'
    simp [callToolStdio, callToolInnerStdio, jsDeref, getNodeStatusStdio, h,
      Bind.bind, Except.bind]
  refine ⟨⟨hexec b, ?_, (hexec b).trans (hexec b2).symm⟩, ⟨hstat b, (hstat b).trans (hstat b2).symm⟩⟩
  unfold execGatedText
  exact strContains_append_mid _ _ _

/-- C1 witness: the amended theorem applied with elevation disabled to the
concrete execute request of the specification scenario (command uptime)
and to a node-status request for node n1. -/
theorem c1_witness :
    (callToolStdio cfgBasic render0 bExecOk "proxmox_execute_vm_command"
        (some { node := some "n1", vmid := some "100", command := some "uptime", type := none })
      = textResp (execGatedText (jsStr (some "uptime")))
     ∧ strContains (execGatedText (jsStr (some "uptime"))) (jsStr (some "uptime")) = true
     ∧ callToolStdio cfgBasic render0 bExecOk "proxmox_execute_vm_command"
         (some { node := some "n1", vmid := some "100", command := some "uptime", type := none })
       = callToolStdio cfgBasic render0 bOneDown "proxmox_execute_vm_command"
         (some { node := some "n1", vmid := some "100", command := some "uptime", type := none }))
  ∧ (callToolStdio cfgBasic render0 bExecOk "proxmox_get_node_status" (some { node := some "n1" })
      = textResp nodeStatusGatedText
     ∧ callToolStdio cfgBasic render0 bExecOk "proxmox_get_node_status" (some { node := some "n1" })
       = callToolStdio cfgBasic render0 bOneDown "proxmox_get_node_status" (some { node := some "n1" })) :=
  c1_amended cfgBasic render0 bExecOk bOneDown (some "n1") (some "100") (some "uptime") none rfl

/-! ## Claim C2 -/

set_option maxRecDepth 4000 in
/-- C2 counterexample: on the HTTP MCP transport the unknown-tool scenario
of the claim is answered with a protocol-level Failure envelope (error
code -32603), not with a Success whose text carries the message; so the
claim that every tool-execution error is surfaced inside a Success
envelope on both transports is false. -/
theorem c2_counterexample :
    mcpEndpoint httpTools0
      { id := some (.num 1), method := "tools/call",
        params := some { name := "nonexistent_tool", arguments := some {} } }
      = .failure (some (.num 1)) (-32603) "Tool execution failed" "Unknown tool: nonexistent_tool"
  ∧ (mcpEndpoint httpTools0
      { id := some (.num 1), method := "tools/call",
        params := some { name := "nonexistent_tool", arguments := some {} } }).isFailure = true := by
  exact ⟨rfl, rfl⟩

/-- C2 (amended): the two transports part ways on every error raised
during tool execution.  On the stdio transport, whatever the dispatched
switch throws (unknown tool, remote-API error, guest-exec failure) is
returned inside a Success envelope whose single text item is Error:
followed by the thrown message, and an unknown tool name throws exactly
Unknown tool: name, so that text contains Unknown tool: name.  On the
HTTP MCP transport, whatever error the tool routing step produces (the
unknown-tool throw or an error of any of its three tools) is surfaced as
a protocol-level Failure envelope with code -32603 whose error data
member carries the message; an unknown tool name there produces the same
Unknown tool: name message. -/
theorem c2_amended (cfg : Config) (r : Render) (b : Backend) (t : HttpTools)
    (name : String) (args? : Option Args) (req : MCPRequest) (p : CallParams)
    (hm : req.method = "tools/call") (hp : req.params = some p) :
    (∀ e, callToolInnerStdio cfg r b name args? = .error e →
       callToolStdio cfg r b name args? = textResp ("Error: " ++ e))
  ∧ (name ∉ stdioToolNames →
       callToolInnerStdio cfg r b name args? = .error ("Unknown tool: " ++ name)
       ∧ callToolStdio cfg r b name args? = textResp ("Error: " ++ ("Unknown tool: " ++ name))
       ∧ strContains ("Error: " ++ ("Unknown tool: " ++ name)) ("Unknown tool: " ++ name) = true)
  ∧ (∀ e, httpToolRoute t p = .error e →
       mcpEndpoint t req = .failure req.id (-32603) "Tool execution failed" e)
  ∧ (p.name ∉ httpToolDescriptors.map ToolDescriptor.name →
       httpToolRoute t p = .error ("Unknown tool: " ++ p.name)) := by
  refine ⟨?_, ?_, ?_, ?_⟩
  · intro e he
    unfold callToolStdio
    rw [he]
  · intro h
    simp only [stdioToolNames, List.mem_cons, List.not_mem_nil, or_false, not_or] at h
    obtain ⟨h1, h2s, h3, h4, h5, h6, h7⟩ := h
    refine ⟨?_, ?_, ?_⟩
    · simp [callToolInnerStdio, h1, h2s, h3, h4, h5, h6, h7]
    · simp [callToolStdio, callToolInnerStdio, h1, h2s, h3, h4, h5, h6, h7]
    · exact strContains_append_of_right "Error: " _ _ (strContains_refl _)
  · intro e he
    simp [mcpEndpoint, handleMCPRequest, handleToolCall, hm, hp, he]
  · intro h2
    simp only [httpToolDescriptors, List.map_cons, List.map_nil, List.mem_cons,
      List.not_mem_nil, or_false, not_or] at h2
    obtain ⟨g1, g2, g3⟩ := h2
    simp [httpToolRoute, g1, g2, g3]

/-- C2 witness: the amended theorem exercised at a stdio remote-API error
(failing /nodes fetch on proxmox_get_nodes), a stdio unknown tool, an
HTTP getNodes error surfaced as a -32603 Failure, and an HTTP unknown
tool. -/
theorem c2_witness :
    callToolStdio cfgBasic render0 bNodesDown "proxmox_get_nodes" (some {})
      = textResp ("Error: " ++ "Proxmox API error: 595")
  ∧ (callToolInnerStdio cfgBasic render0 emptyBackend "nonexistent_tool" (some {})
       = .error ("Unknown tool: " ++ "nonexistent_tool")
     ∧ callToolStdio cfgBasic render0 emptyBackend "nonexistent_tool" (some {})
       = textResp ("Error: " ++ ("Unknown tool: " ++ "nonexistent_tool"))
     ∧ strContains ("Error: " ++ ("Unknown tool: " ++ "nonexistent_tool"))
         ("Unknown tool: " ++ "nonexistent_tool") = true)
  ∧ mcpEndpoint httpToolsFail
      { id := some (.num 7), method := "tools/call",
        params := some { name := "proxmox_get_nodes", arguments := some {} } }
      = .failure (some (.num 7)) (-32603) "Tool execution failed" "Proxmox API error: 595"
  ∧ httpToolRoute httpToolsFail { name := "nonexistent_tool", arguments := some {} }
      = .error ("Unknown tool: " ++ "nonexistent_tool") :=
  ⟨(c2_amended cfgBasic render0 bNodesDown httpToolsFail "proxmox_get_nodes" (some {})
      { id := some (.num 7), method := "tools/call",
        params := some { name := "proxmox_get_nodes", arguments := some {} } }
      { name := "proxmox_get_nodes", arguments := some {} } rfl rfl).1
      "Proxmox API error: 595" rfl,
   (c2_amended cfgBasic render0 emptyBackend httpToolsFail "nonexistent_tool" (some {})
      { id := some (.num 7), method := "tools/call",
        params := some { name := "proxmox_get_nodes", arguments := some {} } }
      { name := "proxmox_get_nodes", arguments := some {} } rfl rfl).2.1 (by decide),
   (c2_amended cfgBasic render0 bNodesDown httpToolsFail "proxmox_get_nodes" (some {})
      { id := some (.num 7), method := "tools/call",
        params := some { name := "proxmox_get_nodes", arguments := some {} } }
      { name := "proxmox_get_nodes", arguments := some {} } rfl rfl).2.2.1
      "Proxmox API error: 595" rfl,
   (c2_amended cfgBasic render0 bNodesDown httpToolsFail "proxmox_get_nodes" (some {})
      { id := some (.num 7), method := "tools/call",
        params := some { name := "nonexistent_tool", arguments := some {} } }
      { name := "nonexistent_tool", arguments := some {} } rfl rfl).2.2.2 (by decide)⟩

/-! ## Claim C3 -/

set_option maxRecDepth 4000 in
/-- C3 counterexample: on the two-node backend bOneDown exactly one
fan-out target fails (qemu on nodeB) and the three others answer, yet the
index.js multi-node getVMs aborts the whole query with the failing
error of that target instead of returning the data of the siblings: the
merged result holds no data of any succeeding target, and the dispatcher surfaces a
content-level error text. -/
theorem c3_counterexample :
    bOneDown.qemu "nodeA" = .ok [vm100]
  ∧ bOneDown.lxc "nodeA" = .ok [vm101]
  ∧ bOneDown.lxc "nodeB" = .ok [vm101]
  ∧ bOneDown.qemu "nodeB" = .error "Failed to connect to Proxmox: offline"
  ∧ getVMsListStdio bOneDown none none = .error "Failed to connect to Proxmox: offline"
  ∧ callToolStdio cfgBasic render0 bOneDown "proxmox_get_vms" (some {})
      = textResp ("Error: " ++ "Failed to connect to Proxmox: offline") := by
  exact ⟨rfl, rfl, rfl, rfl, rfl, rfl⟩

/-- C3 (amended): the HTTP REST getVMs multi-node fan-out has the claimed
property: once the node enumeration answers, the query always succeeds,
the merged list contains every entry of every succeeding (node, kind)
target, every merged entry stems from a succeeding target (a failed
target contributes nothing and aborts nothing), and the succeeded and
failed targets partition the enumerated target set.  In the stdio
index.js getVMs, by the counterexample, a single failing target instead
aborts the whole query. -/
theorem c3_amended (b : Backend) (ns : List NodeEntry) (ty0 : Option String)
    (hn : b.nodes = .ok ns) :
    ∃ vms, getVMsListHttp2 b none ty0 = .ok vms
      ∧ (∀ t ∈ vmTargets ns (jsDefault ty0 "all"), ∀ l, fetchTarget b t = .ok l →
           ∀ v ∈ l, tagVm t.2 t.1 v ∈ vms)
      ∧ (∀ tv ∈ vms,
           (tv.type = "qemu" ∧ ∃ l, b.qemu tv.node = .ok l ∧ ∃ v ∈ l, tv = tagVm "qemu" tv.node v)
         ∨ (tv.type = "lxc" ∧ ∃ l, b.lxc tv.node = .ok l ∧ ∃ v ∈ l, tv = tagVm "lxc" tv.node v))
      ∧ (succeededTargets b ns (jsDefault ty0 "all")).length
          + (failedTargets b ns (jsDefault ty0 "all")).length
          = (vmTargets ns (jsDefault ty0 "all")).length := by
  have hcol : collectVMsHttp2 b none ty0
      = .ok (ns.flatMap (perNodeHttp2 b (jsDefault ty0 "all"))) := by
    unfold collectVMsHttp2
    simp [jsTruthy, hn, Bind.bind, Except.bind]
  refine ⟨sortByVmid (ns.flatMap (perNodeHttp2 b (jsDefault ty0 "all"))), ?_, ?_, ?_, ?_⟩
  · unfold getVMsListHttp2
    rw [hcol]
    rfl
  · intro t ht l hfetch v hv
    rw [mem_sortByVmid]
    rcases List.mem_flatMap.1 ht with ⟨nd, hnd, htin⟩
    rcases List.mem_append.1 htin with hq | hl
    · have hcond : jsDefault ty0 "all" = "all" ∨ jsDefault ty0 "all" = "qemu" := by
        by_contra hc
        rw [if_neg hc] at hq
        exact List.not_mem_nil t hq
      rw [if_pos hcond] at hq
      have hteq : t = (nd.node, "qemu") := List.mem_singleton.1 hq
      subst hteq
      have hfq : b.qemu nd.node = .ok l := by
        simpa [fetchTarget] using hfetch
      exact List.mem_flatMap.2 ⟨nd, hnd, mem_perNodeHttp2_qemu hcond hfq hv⟩
    · have hcond : jsDefault ty0 "all" = "all" ∨ jsDefault ty0 "all" = "lxc" := by
        by_contra hc
        rw [if_neg hc] at hl
        exact List.not_mem_nil t hl
      rw [if_pos hcond] at hl
      have hteq : t = (nd.node, "lxc") := List.mem_singleton.1 hl
      subst hteq
      have hfl : b.lxc nd.node = .ok l := by
        simpa [fetchTarget] using hfetch
      exact List.mem_flatMap.2 ⟨nd, hnd, mem_perNodeHttp2_lxc hcond hfl hv⟩
  · intro tv htv
    rw [mem_sortByVmid] at htv
    rcases List.mem_flatMap.1 htv with ⟨nd, hnd, hin⟩
    rcases of_mem_perNodeHttp2 hin with ⟨l, hf, v, hv, hEq⟩ | ⟨l, hf, v, hv, hEq⟩
    · left
      subst hEq
      exact ⟨rfl, l, hf, v, hv, rfl⟩
    · right
      subst hEq
      exact ⟨rfl, l, hf, v, hv, rfl⟩
  · unfold succeededTargets failedTargets
    exact length_filter_partition _ _

/-- C3 witness: the amended theorem applied to the one-node-down backend
bOneDown of the counterexample, on which the HTTP REST getVMs does merge
the three succeeding targets and skip the failed one. -/
theorem c3_witness :
    ∃ vms, getVMsListHttp2 bOneDown none none = .ok vms
      ∧ (∀ t ∈ vmTargets [nodeA, nodeB] (jsDefault none "all"), ∀ l,
           fetchTarget bOneDown t = .ok l → ∀ v ∈ l, tagVm t.2 t.1 v ∈ vms)
      ∧ (∀ tv ∈ vms,
           (tv.type = "qemu" ∧ ∃ l, bOneDown.qemu tv.node = .ok l ∧ ∃ v ∈ l, tv = tagVm "qemu" tv.node v)
         ∨ (tv.type = "lxc" ∧ ∃ l, bOneDown.lxc tv.node = .ok l ∧ ∃ v ∈ l, tv = tagVm "lxc" tv.node v))
      ∧ (succeededTargets bOneDown [nodeA, nodeB] (jsDefault none "all")).length
          + (failedTargets bOneDown [nodeA, nodeB] (jsDefault none "all")).length
          = (vmTargets [nodeA, nodeB] (jsDefault none "all")).length :=
  c3_amended bOneDown [nodeA, nodeB] none rfl

/-! ## Claim C4 -/

/-- C4 counterexample: a tools/list call on the HTTP MCP transport is
answered with the statically declared three-tool catalogue, whose name
set is not the seven-tool catalogue of the claim (for instance
proxmox_execute_vm_command is missing); so the claim does not hold for
every tools/list call. -/
theorem c4_counterexample :
    handleToolsList { id := some (.num 1), method := "tools/list" }
      = .success (some (.num 1)) (.toolsList httpToolDescriptors)
  ∧ httpToolDescriptors.map ToolDescriptor.name ≠ stdioToolNames
  ∧ "proxmox_execute_vm_command" ∉ httpToolDescriptors.map ToolDescriptor.name := by
  exact ⟨rfl, by decide, by decide⟩

/-- C4 (amended): the stdio ListTools handler returns exactly the
statically declared seven-tool catalogue whatever the elevation flag says
(its result does not depend on the configuration), while a tools/list
call on the HTTP MCP transport returns exactly its statically declared
three-tool catalogue, likewise unfiltered by permission state. -/
theorem c4_amended (cfg cfg2 : Config) (t : HttpTools) (req : MCPRequest)
    (h : req.method = "tools/list") :
    (listToolsStdio cfg).map ToolDescriptor.name = stdioToolNames
  ∧ listToolsStdio cfg = listToolsStdio cfg2
  ∧ handleMCPRequest t req = .ok (.success req.id (.toolsList httpToolDescriptors))
  ∧ httpToolDescriptors.map ToolDescriptor.name
      = ["proxmox_get_nodes", "proxmox_get_vms", "proxmox_get_cluster_status"] := by
  refine ⟨rfl, rfl, ?_, rfl⟩
  simp [handleMCPRequest, handleToolsList, h]

/-- C4 witness: tools/list on both catalogues with both elevation values. -/
theorem c4_witness :
    (listToolsStdio cfgBasic).map ToolDescriptor.name = stdioToolNames
  ∧ listToolsStdio cfgBasic = listToolsStdio cfgElev
  ∧ handleMCPRequest httpTools0 { id := some (.str "a"), method := "tools/list" }
      = .ok (.success (some (.str "a")) (.toolsList httpToolDescriptors))
  ∧ httpToolDescriptors.map ToolDescriptor.name
      = ["proxmox_get_nodes", "proxmox_get_vms", "proxmox_get_cluster_status"] :=
  c4_amended cfgBasic cfgElev httpTools0 { id := some (.str "a"), method := "tools/list" } rfl

/-! ## Claim C5 -/

/-- C5 counterexample: the stdio and HTTP MCP dispatchers are not
observationally equivalent: the same logical tools/list call yields a
seven-name catalogue on stdio and a three-name catalogue on HTTP, and the
same unknown-tool tools/call yields a Success content text on stdio but a
protocol Failure envelope on HTTP. -/
theorem c5_counterexample :
    (listToolsStdio cfgBasic).map ToolDescriptor.name
      ≠ httpToolDescriptors.map ToolDescriptor.name
  ∧ callToolStdio cfgBasic render0 emptyBackend "no_such_tool" (some {})
      = textResp ("Error: " ++ "Unknown tool: no_such_tool")
  ∧ (mcpEndpoint httpTools0
      { id := some (.num 2), method := "tools/call",
        params := some { name := "no_such_tool", arguments := some {} } }).isFailure = true := by
  refine ⟨by decide, rfl, rfl⟩

/-- C5 (amended): the two dispatcher implementations are not
observationally equivalent.  For every elevation state the stdio
tools/list names differ from the HTTP ones, and for every tool name
outside both catalogues the stdio dispatcher answers tools/call with a
content-level Success text while the HTTP dispatcher answers with a
protocol-level Failure envelope. -/
theorem c5_amended (cfg : Config) (r : Render) (b : Backend) (t : HttpTools)
    (name : String) (rid : Option JsonId) (args2 : Option Args)
    (h : name ∉ stdioToolNames)
    (h2 : name ∉ httpToolDescriptors.map ToolDescriptor.name) :
    (listToolsStdio cfg).map ToolDescriptor.name
      ≠ httpToolDescriptors.map ToolDescriptor.name
  ∧ (callToolStdio cfg r b name args2).content
      = [{ type := "text", text := "Error: " ++ ("Unknown tool: " ++ name) }]
  ∧ (mcpEndpoint t
      { id := rid, method := "tools/call",
        params := some { name := name, arguments := args2 } }).isFailure = true := by
  simp only [stdioToolNames, List.mem_cons, List.not_mem_nil, or_false, not_or] at h
  obtain ⟨h1, h2s, h3, h4, h5, h6, h7⟩ := h
  simp only [httpToolDescriptors, List.map_cons, List.map_nil, List.mem_cons,
    List.not_mem_nil, or_false, not_or] at h2
  obtain ⟨g1, g2, g3⟩ := h2
  have hnames : (listToolsStdio cfg).map ToolDescriptor.name = stdioToolNames := rfl
  refine ⟨by rw [hnames]; decide, ?_, ?_⟩
  · simp [callToolStdio, callToolInnerStdio, h1, h2s, h3, h4, h5, h6, h7, textResp]
  · simp [mcpEndpoint, handleMCPRequest, handleToolCall, httpToolRoute, g1, g2, g3, MCPResponse.isFailure]

/-- C5 witness: the amended theorem at the unknown tool name no_such_tool
on both transports. -/
theorem c5_witness :
    (listToolsStdio cfgElev).map ToolDescriptor.name
      ≠ httpToolDescriptors.map ToolDescriptor.name
  ∧ (callToolStdio cfgElev render0 emptyBackend "no_such_tool" (some {})).content
      = [{ type := "text", text := "Error: " ++ ("Unknown tool: " ++ "no_such_tool") }]
  ∧ (mcpEndpoint httpTools0
      { id := some (.num 3), method := "tools/call",
        params := some { name := "no_such_tool", arguments := some {} } }).isFailure = true :=
  c5_amended cfgElev render0 emptyBackend httpTools0 "no_such_tool" (some (.num 3)) (some {})
    (by decide) (by decide)

/-! ## Claim C6 -/

set_option maxRecDepth 4000 in
/-- C6 (confirmed): with elevation enabled, executeVMCommand selects the
execution strategy by target kind.  For type qemu (explicitly or by
default) it submits the command to the in-guest agent and answers with
the submission-acceptance notice carrying the opaque agent process
identifier, without any command output; for type lxc it runs the host
exec facility and answers with the command output inline. -/
theorem c6_theorem (cfg : Config) (b : Backend) (node vmid command : Option String)
    (hE : cfg.allowElevated = true) :
    (∀ res, b.agentExec (jsStr node) (jsStr vmid) (jsStr command) = .ok res →
       executeVMCommandStdio cfg b node vmid command (some "qemu")
         = textResp (qemuExecText (jsStr vmid) (jsStr command) res.pid)
       ∧ executeVMCommandStdio cfg b node vmid command none
         = textResp (qemuExecText (jsStr vmid) (jsStr command) res.pid)
       ∧ strContains (qemuExecText (jsStr vmid) (jsStr command) res.pid)
           "Command submitted to guest agent" = true)
  ∧ (∀ out, b.lxcExec (jsStr node) (jsStr vmid) (jsStr command) = .ok out →
       executeVMCommandStdio cfg b node vmid command (some "lxc")
         = textResp (lxcExecText (jsStr vmid) (jsStr command) out)
       ∧ strContains (lxcExecText (jsStr vmid) (jsStr command) out)
           (jsOrStr out "Command executed successfully") = true) := by
  constructor
  · intro res hres
    refine ⟨?_, ?_, ?_⟩
    · simp [executeVMCommandStdio, hE, jsDefault, hres, Except.map]
    · simp [executeVMCommandStdio, hE, jsDefault, hres, Except.map]
    · unfold qemuExecText
      exact strContains_append_of_left _ _ _
        (strContains_append_of_left _ _ _
          (strContains_append_of_right _ _ _ (by rfl)))
  · intro out hout
    refine ⟨?_, ?_⟩
    · simp [executeVMCommandStdio, hE, jsDefault, hout, Except.map]
    · unfold lxcExecText
      exact strContains_append_of_left _ _ _
        (strContains_append_of_right _ _ _ (strContains_refl _))

set_option maxRecDepth 4000 in
/-- C6 witness: the strategy split on the backend bExecOk, whose agent
answers pid 1234 and whose container exec answers output. -/
theorem c6_witness :
    (executeVMCommandStdio cfgElev bExecOk (some "n1") (some "100") (some "uptime") (some "qemu")
       = textResp (qemuExecText (jsStr (some "100")) (jsStr (some "uptime")) (some 1234))
     ∧ executeVMCommandStdio cfgElev bExecOk (some "n1") (some "100") (some "uptime") none
       = textResp (qemuExecText (jsStr (some "100")) (jsStr (some "uptime")) (some 1234))
     ∧ strContains (qemuExecText (jsStr (some "100")) (jsStr (some "uptime")) (some 1234))
         "Command submitted to guest agent" = true)
  ∧ (executeVMCommandStdio cfgElev bExecOk (some "n1") (some "100") (some "uptime") (some "lxc")
       = textResp (lxcExecText (jsStr (some "100")) (jsStr (some "uptime")) (some "up 3 days"))
     ∧ strContains (lxcExecText (jsStr (some "100")) (jsStr (some "uptime")) (some "up 3 days"))
         (jsOrStr (some "up 3 days") "Command executed successfully") = true) :=
  ⟨(c6_theorem cfgElev bExecOk (some "n1") (some "100") (some "uptime") rfl).1
      { pid := some 1234 } rfl,
   (c6_theorem cfgElev bExecOk (some "n1") (some "100") (some "uptime") rfl).2
      (some "up 3 days") rfl⟩

/-! ## Claim C7 -/

/-- C7 counterexample: getNodes hands the presentation layer the nodes in
backend arrival order, unsorted: on the backend bDescending the rendered
listing shows nodeB before nodeA although nodeB is not below nodeA in
identifier order; so the claim that every listing operation orders by
ascending target identifier fails for the node listing. -/
theorem c7_counterexample :
    getNodesStdio renderNames bDescending = .ok (textResp "nodeB,nodeA")
  ∧ ¬ ("nodeB" ≤ "nodeA") := by
  refine ⟨rfl, ?_⟩
  rw [String.le_iff_toList_le]
  decide

/-- C7 (amended): the VM listing is sorted by ascending vmid and the
storage listing by ascending storage name, and all three listings are
deterministic functions of the listing endpoints of the backend (two
backends agreeing on those endpoints yield identical output), so
repeating an identical call against an unchanged backend yields
structurally identical output; the node listing, however, is handed to
the presentation layer in backend arrival order, unsorted. -/
theorem c7_amended (b b2 : Backend) (r : Render) (nf tf : Option String)
    (hn : b.nodes = b2.nodes) (hq : b.qemu = b2.qemu) (hl : b.lxc = b2.lxc)
    (hs : b.storage = b2.storage) :
    (∀ vms, getVMsListStdio b nf tf = .ok vms →
       List.Pairwise (fun x y : TaggedVm => x.vmid ≤ y.vmid) vms)
  ∧ (∀ ss, getStorageListStdio b nf = .ok ss →
       List.Pairwise (fun x y : TaggedStorage => x.storage ≤ y.storage) ss)
  ∧ getVMsListStdio b nf tf = getVMsListStdio b2 nf tf
  ∧ getNodesStdio r b = getNodesStdio r b2
  ∧ getStorageListStdio b nf = getStorageListStdio b2 nf
  ∧ (∀ ns, b.nodes = .ok ns → getNodesStdio r b = .ok (textResp (r.nodes ns))) := by
  refine ⟨?_, ?_, ?_, ?_, ?_, ?_⟩
  · intro vms h
    unfold getVMsListStdio at h
    cases hc : collectVMsStdio b nf tf <;> rw [hc] at h <;> simp [Except.map] at h
    subst h
    exact sortByVmid_sorted _
  · intro ss h
    unfold getStorageListStdio at h
    cases hc : collectStorageStdio b nf <;> rw [hc] at h <;> simp [Except.map] at h
    subst h
    exact sortByStorageName_sorted _
  · simp only [getVMsListStdio, collectVMsStdio, collectVMsStdioAll, hn, hq, hl]
  · simp only [getNodesStdio, hn]
  · simp only [getStorageListStdio, collectStorageStdio, hs, hn]
  · intro ns h
    simp [getNodesStdio, h, Bind.bind, Except.bind]

/-- C7 witness: the amended theorem on the backend bOneDown, compared
with itself as the unchanged backend. -/
theorem c7_witness :
    (∀ vms, getVMsListStdio bOneDown none none = .ok vms →
       List.Pairwise (fun x y : TaggedVm => x.vmid ≤ y.vmid) vms)
  ∧ (∀ ss, getStorageListStdio bOneDown none = .ok ss →
       List.Pairwise (fun x y : TaggedStorage => x.storage ≤ y.storage) ss)
  ∧ getVMsListStdio bOneDown none none = getVMsListStdio bOneDown none none
  ∧ getNodesStdio render0 bOneDown = getNodesStdio render0 bOneDown
  ∧ getStorageListStdio bOneDown none = getStorageListStdio bOneDown none
  ∧ (∀ ns, bOneDown.nodes = .ok ns →
       getNodesStdio render0 bOneDown = .ok (textResp (render0.nodes ns))) :=
  c7_amended bOneDown bOneDown render0 none none rfl rfl rfl rfl

/-! ## Claim C8 -/

/-- C8 counterexample: a tools/call request with id 0 and absent params
makes handleToolCall throw, and the endpoint catch answers with id null,
not with the verbatim id 0, because req.body?.id || null coerces every
falsy id; so the claim that the id is echoed verbatim on the error path
fails. -/
theorem c8_counterexample :
    mcpEndpoint httpTools0 { id := some (.num 0), method := "tools/call", params := none }
      = .failure (some .null) (-32603) "Internal error" argsTypeErrText
  ∧ some (JsonId.num 0) ≠ some JsonId.null := by
  exact ⟨rfl, by decide⟩

/-- C8 (amended): every response the HTTP MCP method router itself
produces (initialize, tools/list, tools/call success and failure, unknown
method) carries the request id verbatim, absent and null included; on the
top-level catch path the id is instead passed through the JS expression
req.body?.id || null, so it is either the verbatim id or null (the
latter whenever the id was falsy: 0, the empty string, null or absent). -/
theorem c8_amended (t : HttpTools) (req : MCPRequest) :
    (∀ resp, handleMCPRequest t req = .ok resp → resp.rid = req.id)
  ∧ ((mcpEndpoint t req).rid = req.id ∨ (mcpEndpoint t req).rid = some .null) := by
  have h1 : ∀ resp, handleMCPRequest t req = .ok resp → resp.rid = req.id := by
    intro resp h
    unfold handleMCPRequest at h
    split_ifs at h with hm1 hm2 hm3
    · injection h with h
      subst h
      rfl
    · injection h with h
      subst h
      rfl
    · unfold handleToolCall at h
      cases hp : req.params with
      | none =>
          rw [hp] at h
          simp at h
      | some p =>
          rw [hp] at h
          dsimp only at h
          cases hr : httpToolRoute t p <;> rw [hr] at h <;> injection h with h <;>
            subst h <;> rfl
    · injection h with h
      subst h
      rfl
  refine ⟨h1, ?_⟩
  unfold mcpEndpoint
  cases hh : handleMCPRequest t req with
  | ok resp =>
      left
      exact h1 resp hh
  | error e =>
      rcases jsIdOrNull_cases req.id with hc | hc
      · left
        simpa [MCPResponse.rid] using hc
      · right
        simpa [MCPResponse.rid] using hc

/-- C8 witness: the amended theorem on an initialize request with id 5. -/
theorem c8_witness :
    (MCPResponse.success (some (.num 5))
        (.initRes "2024-11-05" "proxmox-mcp-server" "1.0.0")).rid = some (.num 5)
  ∧ ((mcpEndpoint httpTools0 { id := some (.num 5), method := "initialize" }).rid
        = some (.num 5)
     ∨ (mcpEndpoint httpTools0 { id := some (.num 5), method := "initialize" }).rid
        = some .null) :=
  ⟨(c8_amended httpTools0 { id := some (.num 5), method := "initialize" }).1 _ rfl,
   (c8_amended httpTools0 { id := some (.num 5), method := "initialize" }).2⟩

/-! ## Claim C9 -/

set_option maxRecDepth 4000 in
/-- C9 counterexample: with elevation enabled and a failing guest-agent
exec, the failure text interpolates the vmid and the error message but
not the offending command: for command uptime the text does not contain
uptime; so the claim that the error text includes the command string
fails.  The failure is still a content-level Success response. -/
theorem c9_counterexample :
    executeVMCommandStdio cfgElev bExecFail (some "n1") (some "100") (some "uptime") none
      = textResp (execFailText "100" "boom")
  ∧ strContains (execFailText "100" "boom") "uptime" = false
  ∧ strContains (execFailText "100" "boom") "boom" = true := by
  exact ⟨rfl, rfl, rfl⟩

/-- C9 (amended): every elevated executeVMCommand whose underlying
execution fails answers with a content-level error inside a Success
response, never a protocol failure; the error text contains the vmid and
the error message, but not (in general) the offending command string. -/
theorem c9_amended (cfg : Config) (b : Backend) (node vmid command ty : Option String)
    (e : String) (hE : cfg.allowElevated = true)
    (hq : jsDefault ty "qemu" = "qemu" →
      b.agentExec (jsStr node) (jsStr vmid) (jsStr command) = .error e)
    (hl : jsDefault ty "qemu" ≠ "qemu" →
      b.lxcExec (jsStr node) (jsStr vmid) (jsStr command) = .error e) :
    executeVMCommandStdio cfg b node vmid command ty = textResp (execFailText (jsStr vmid) e)
  ∧ strContains (execFailText (jsStr vmid) e) e = true
  ∧ strContains (execFailText (jsStr vmid) e) (jsStr vmid) = true := by
  refine ⟨?_, ?_, ?_⟩
  · by_cases hty : jsDefault ty "qemu" = "qemu"
    · simp [executeVMCommandStdio, hE, hty, hq hty, Except.map]
    · simp [executeVMCommandStdio, hE, hty, hl hty, Except.map]
  · unfold execFailText
    exact strContains_append_mid _ _ _
  · unfold execFailText
    exact strContains_append_of_left _ _ _
      (strContains_append_of_left _ _ _
        (strContains_append_of_left _ _ _
          (strContains_append_of_right _ _ _ (strContains_refl _))))

/-- C9 witness: the amended theorem on the failing-agent backend of the
counterexample. -/
theorem c9_witness :
    executeVMCommandStdio cfgElev bExecFail (some "n1") (some "100") (some "uptime") none
      = textResp (execFailText (jsStr (some "100")) "boom")
  ∧ strContains (execFailText (jsStr (some "100")) "boom") "boom" = true
  ∧ strContains (execFailText (jsStr (some "100")) "boom") (jsStr (some "100")) = true :=
  c9_amended cfgElev bExecFail (some "n1") (some "100") (some "uptime") none "boom"
    rfl (fun _ => rfl) (fun h => absurd rfl h)

/-! ## Claim C10 -/

set_option maxRecDepth 4000 in
/-- C10 (confirmed): the stdio tools/call handler is total: for every
tool name and every arguments value it returns a single-text-item content
response; whenever the dispatched switch throws (unknown tool, absent
arguments object, backend error), the catch returns the content response
whose text is the thrown message prefixed with Error: , and in
particular an absent arguments object on an arguments-reading tool is
answered with the TypeError text, never propagated. -/
theorem c10_theorem (cfg : Config) (r : Render) (b : Backend)
    (name : String) (args? : Option Args) :
    (∃ t, callToolStdio cfg r b name args? = textResp t)
  ∧ (∀ e, callToolInnerStdio cfg r b name args? = .error e →
       callToolStdio cfg r b name args? = textResp ("Error: " ++ e))
  ∧ (args? = none →
       name = "proxmox_get_node_status" ∨ name = "proxmox_get_vms" ∨
       name = "proxmox_get_vm_status" ∨ name = "proxmox_execute_vm_command" ∨
       name = "proxmox_get_storage" →
       callToolStdio cfg r b name args? = textResp ("Error: " ++ argsTypeErrText)) := by
  have hshape : ∀ resp, callToolInnerStdio cfg r b name args? = .ok resp →
      ∃ t, resp = textResp t := by
    intro resp h
    unfold callToolInnerStdio at h
    split_ifs at h with h1 h2 h3 h4 h5 h6 h7
    · exact getNodesStdio_shape r b resp h
    · cases ha : args? with
      | none => rw [ha] at h; simp [jsDeref, Bind.bind, Except.bind] at h
      | some a =>
          rw [ha] at h
          simp only [jsDeref, Bind.bind, Except.bind] at h
          exact getNodeStatusStdio_shape cfg r b a.node resp h
    · cases ha : args? with
      | none => rw [ha] at h; simp [jsDeref, Bind.bind, Except.bind] at h
      | some a =>
          rw [ha] at h
          simp only [jsDeref, Bind.bind, Except.bind] at h
          exact getVMsStdio_shape r b a.node a.type resp h
    · cases ha : args? with
      | none => rw [ha] at h; simp [jsDeref, Bind.bind, Except.bind] at h
      | some a =>
          rw [ha] at h
          simp only [jsDeref, Bind.bind, Except.bind] at h
          exact getVMStatusStdio_shape r b a.node a.vmid a.type resp h
    · cases ha : args? with
      | none => rw [ha] at h; simp [jsDeref, Bind.bind, Except.bind] at h
      | some a =>
          rw [ha] at h
          simp only [jsDeref, Bind.bind, Except.bind] at h
          injection h with h
          rcases executeVMCommandStdio_shape cfg b a.node a.vmid a.command a.type with ⟨t, ht⟩
          exact ⟨t, h ▸ ht⟩
    · cases ha : args? with
      | none => rw [ha] at h; simp [jsDeref, Bind.bind, Except.bind] at h
      | some a =>
          rw [ha] at h
          simp only [jsDeref, Bind.bind, Except.bind] at h
          exact getStorageStdio_shape r b a.node resp h
    · injection h with h
      rcases getClusterStatusStdio_shape cfg r b with ⟨t, ht⟩
      exact ⟨t, h ▸ ht⟩
  refine ⟨?_, ?_, ?_⟩
  · cases hc : callToolInnerStdio cfg r b name args? with
    | ok resp =>
        rcases hshape resp hc with ⟨t, ht⟩
        refine ⟨t, ?_⟩
        unfold callToolStdio
        rw [hc, ht]
    | error e =>
        refine ⟨"Error: " ++ e, ?_⟩
        unfold callToolStdio
        rw [hc]
  · intro e he
    unfold callToolStdio
    rw [he]
  · intro ha hnm
    subst ha
    rcases hnm with h | h | h | h | h <;> subst h <;> rfl

set_option maxRecDepth 4000 in
/-- C10 witness: the dispatcher catch at two concrete throwing inputs: an
unknown tool name, and an absent arguments object on proxmox_get_vms. -/
theorem c10_witness :
    callToolStdio cfgBasic render0 emptyBackend "bogus_tool" (some {})
      = textResp ("Error: " ++ ("Unknown tool: " ++ "bogus_tool"))
  ∧ callToolStdio cfgBasic render0 emptyBackend "proxmox_get_vms" none
      = textResp ("Error: " ++ argsTypeErrText) :=
  ⟨(c10_theorem cfgBasic render0 emptyBackend "bogus_tool" (some {})).2.1
      ("Unknown tool: " ++ "bogus_tool") rfl,
   (c10_theorem cfgBasic render0 emptyBackend "proxmox_get_vms" none).2.2 rfl
      (Or.inr (Or.inl rfl))⟩
